import Mathlib

/-!
Shallow embedding of the YITRO CRM server (`src/server/index-simple.ts`):
the `auth_users` / `auth_sessions` tables, the business tables queried by the
metrics endpoint, the token and password-hash libraries as used by the
handlers, and the five HTTP handlers themselves.  Timestamps are natural
numbers (milliseconds since epoch, as produced by `Date.now()`); the database
is a record of lists of rows, with `dbGet` lookups modelled by `List.find?`
(first matching row) and SQL UPDATE statements by `List.map`.
-/

namespace YitroCrm

/-- Lowercasing as performed by JavaScript `String.prototype.toLowerCase` on
the ASCII strings this server handles: every character mapped to its lowercase
form. -/
def lowerStr (s : String) : String := ⟨s.data.map Char.toLower⟩

/-- Truthiness guard used by the handlers on JSON body fields
(`if (!email || !password)` and the like): a field is falsy when it is absent
from the body or is the empty string. -/
def falsyStr : Option String → Bool
  | none => true
  | some s => s == ""

/-- Model of the bcrypt library as used by the server: `bcrypt.hash` is an
injective one-way function, abstracted as a tagged copy of the password, and
`bcrypt.compare password hash` succeeds exactly when `hash` was produced from
`password`.  Only that comparison behaviour is observable in the handlers. -/
def bcrypt_hash (password : String) : String := "$2b$10$" ++ password

/-- Password check performed at sign-in (`bcrypt.compare`). -/
def bcrypt_compare (password hash : String) : Bool := hash == bcrypt_hash password

/-- Claims object signed at sign-in (the `tokenData` literal: userId, email,
role and a millisecond issuance timestamp). -/
structure TokenClaims where
  userId : String
  email : String
  role : String
  timestamp : Nat
deriving Repr, DecidableEq

/-- Model of a token produced by `jwt.sign`: the embedded claims, the signing
secret (a token verifies only against the same secret, modelling signature
validity) and the absolute expiry instant derived from the 24-hour
`expiresIn` window. -/
structure Jwt where
  claims : TokenClaims
  secret : String
  expiresAt : Nat
deriving Repr, DecidableEq

/-- Signing: `jwt.sign(tokenData, secret, 24h)` at instant `now`. -/
def jwt_sign (data : TokenClaims) (secret : String) (now ttl : Nat) : Jwt :=
  ⟨data, secret, now + ttl⟩

/-- Verification: `jwt.verify(token, secret)` at instant `now` returns the
embedded claims when the signature matches and the token is not expired, and
throws otherwise — modelled as `none`, which the handlers turn into their
catch-block response. -/
def jwt_verify (tok : Jwt) (secret : String) (now : Nat) : Option TokenClaims :=
  if tok.secret == secret && now < tok.expiresAt then some tok.claims else none

/-- The 24-hour TTL in milliseconds used both for the token and for the
session row expiry. -/
def ttl24h : Nat := 24 * 60 * 60 * 1000

/-- Row of the `auth_users` table (the Credential Store). -/
structure AuthUser where
  id : String
  email : String
  displayName : String
  passwordHash : String
  role : String
  emailVerified : Bool
  createdAt : Nat
  updatedAt : Nat
  lastLogin : Option Nat
deriving Repr, DecidableEq

/-- Row of the `auth_sessions` table (the Session Ledger).  The `tokenHash`
column stores the issued token itself, as the INSERT at sign-in does. -/
structure AuthSession where
  id : String
  userId : String
  tokenHash : Jwt
  expiresAt : Nat
  ipAddress : String
  userAgent : String
  isActive : Bool
deriving Repr, DecidableEq

/-- Row of the `leads` table, restricted to the columns the server reads. -/
structure Lead where
  firstName : String
  lastName : String
  status : String
  createdAt : Nat
  createdBy : String
deriving Repr, DecidableEq

/-- Row of the `accounts` table, restricted to the columns the server reads. -/
structure Account where
  accountName : String
  status : String
  createdAt : Nat
  createdBy : String
deriving Repr, DecidableEq

/-- Row of the `active_deals` table, restricted to the columns the server
reads. -/
structure Deal where
  dealName : String
  stage : String
  createdAt : Nat
  createdBy : String
deriving Repr, DecidableEq

/-- Row of the `contacts` table; the server only ever counts contacts,
optionally filtered by `createdBy`. -/
structure Contact where
  createdAt : Nat
  createdBy : String
deriving Repr, DecidableEq

/-- The SQLite database backing the server. -/
structure Db where
  auth_users : List AuthUser
  auth_sessions : List AuthSession
  leads : List Lead
  accounts : List Account
  active_deals : List Deal
  contacts : List Contact
deriving Repr, DecidableEq

/-- Public profile projection returned by sign-in, by `GET /api/auth/me` and
by user creation: id, email, role, displayName. -/
structure UserPublic where
  id : String
  email : String
  role : String
  displayName : String
deriving Repr, DecidableEq

/-- Projection returned by `GET /api/admin/users` (no password hash). -/
structure UserListing where
  id : String
  email : String
  displayName : String
  role : String
  emailVerified : Bool
  createdAt : Nat
  lastLogin : Option Nat
deriving Repr, DecidableEq

/-- The four table counts of the metrics response. -/
structure Metrics where
  leads : Nat
  accounts : Nat
  deals : Nat
  contacts : Nat
deriving Repr, DecidableEq

/-- One row of the `recentActivities` union query: a type tag, a display
name, a status or stage, and the creation time. -/
structure Activity where
  type : String
  name : String
  status : String
  createdAt : Nat
deriving Repr, DecidableEq

/-- JSON response of a handler.  Fields that a given handler does not set
stay at their defaults; `status` is the HTTP status code. -/
structure Response where
  status : Nat
  success : Bool
  message : String := ""
  user : Option UserPublic := none
  token : Option Jwt := none
  metrics : Option Metrics := none
  recentActivities : Option (List Activity) := none
  userRole : Option String := none
  users : Option (List UserListing) := none
deriving Repr, DecidableEq

/-- Authorization header of a request as the handlers see it: absent,
present but not of the form `Bearer <token>` (both answered before any
verification), or carrying a bearer token, which may itself still fail
verification. -/
inductive AuthHeader where
  | missing : AuthHeader
  | malformed : String → AuthHeader
  | bearer : Jwt → AuthHeader
deriving Repr, DecidableEq

/-- Body of `POST /api/auth/signin`. -/
structure SigninBody where
  email : Option String
  password : Option String
deriving Repr, DecidableEq

/-- Body of `POST /api/admin/users`; `role` is optional and defaults to
`user` via destructuring. -/
structure CreateUserBody where
  email : Option String
  displayName : Option String
  password : Option String
  role : Option String
deriving Repr, DecidableEq

/-- Query `SELECT ... FROM auth_users WHERE email = ?` through `dbGet`, which
yields the first matching row, if any. -/
def findByEmail (users : List AuthUser) (email : String) : Option AuthUser :=
  users.find? fun u => u.email == email

/-- Query `SELECT ... FROM auth_users WHERE id = ?` through `dbGet`. -/
def findById (users : List AuthUser) (uid : String) : Option AuthUser :=
  users.find? fun u => u.id == uid

/-- Effect of `UPDATE auth_sessions SET isActive = 0 WHERE userId = ? AND
isActive = 1`. -/
def deactivateSessions (sessions : List AuthSession) (uid : String) : List AuthSession :=
  sessions.map fun s => if s.userId == uid && s.isActive then { s with isActive := false } else s

/-- Effect of `UPDATE auth_users SET lastLogin = ? WHERE id = ?`. -/
def recordLogin (users : List AuthUser) (uid : String) (now : Nat) : List AuthUser :=
  users.map fun u => if u.id == uid then { u with lastLogin := some now } else u

/-- Profile projection `\x7bid, email, role, displayName\x7d`. -/
def publicOf (u : AuthUser) : UserPublic := ⟨u.id, u.email, u.role, u.displayName⟩

/-- Handler `POST /api/auth/signin`.  `now` is the clock reading, `rand` the
random suffix of the generated session id, `ip` and `ua` the request origin
metadata, `secret` the configured signing secret.  `insertOk` injects the
outcome of the session INSERT store call: when it is false the promise
rejects after the deactivation UPDATE has already been applied, and control
reaches the catch block, which answers 500.  All other store calls are taken
to succeed. -/
def signin (db : Db) (body : SigninBody) (now : Nat) (rand ip ua secret : String)
    (insertOk : Bool) : Response × Db :=
  if falsyStr body.email || falsyStr body.password then
    ({ status := 400, success := false, message := "Email and password are required" }, db)
  else
    let email := body.email.getD ""
    let password := body.password.getD ""
    match findByEmail db.auth_users (lowerStr email) with
    | none => ({ status := 401, success := false, message := "Invalid credentials" }, db)
    | some user =>
      if !(bcrypt_compare password user.passwordHash) then
        ({ status := 401, success := false, message := "Invalid credentials" }, db)
      else
        let db1 : Db := { db with auth_sessions := deactivateSessions db.auth_sessions user.id }
        let token := jwt_sign ⟨user.id, user.email, user.role, now⟩ secret now ttl24h
        if !insertOk then
          ({ status := 500, success := false, message := "Internal server error" }, db1)
        else
          let sess : AuthSession :=
            ⟨"sess_" ++ toString now ++ "_" ++ rand, user.id, token, now + ttl24h, ip, ua, true⟩
          let db2 : Db := { db1 with auth_sessions := db1.auth_sessions ++ [sess] }
          let db3 : Db := { db2 with auth_users := recordLogin db2.auth_users user.id now }
          ({ status := 200, success := true, message := "Signed in successfully",
             user := some (publicOf user), token := some token }, db3)

/-- Handler `GET /api/auth/me`.  A `jwt.verify` exception is caught and
answered with 401 Invalid token. -/
def authMe (db : Db) (hdr : AuthHeader) (secret : String) (now : Nat) : Response :=
  match hdr with
  | .missing => { status := 401, success := false, message := "No token provided" }
  | .malformed _ => { status := 401, success := false, message := "No token provided" }
  | .bearer tok =>
    match jwt_verify tok secret now with
    | none => { status := 401, success := false, message := "Invalid token" }
    | some decoded =>
      match findById db.auth_users decoded.userId with
      | none => { status := 401, success := false, message := "User not found" }
      | some user => { status := 200, success := true, user := some (publicOf user) }

/-- Row scope produced by the `whereClause` of the metrics handler: a
non-admin only sees rows whose `createdBy` equals their id; an admin sees
every row of the table. -/
def scopedRows {α : Type} (createdBy : α → String) (user : AuthUser) (rows : List α) : List α :=
  if user.role != "admin" then rows.filter (fun r => createdBy r == user.id) else rows

/-- Projection of a lead in the activities union query. -/
def leadActivity (l : Lead) : Activity :=
  ⟨"lead", l.firstName ++ " " ++ l.lastName, l.status, l.createdAt⟩

/-- Projection of an account in the activities union query. -/
def accountActivity (a : Account) : Activity := ⟨"account", a.accountName, a.status, a.createdAt⟩

/-- Projection of a deal in the activities union query. -/
def dealActivity (d : Deal) : Activity := ⟨"deal", d.dealName, d.stage, d.createdAt⟩

/-- Comparator realising `ORDER BY createdAt DESC` on activities. -/
def byCreatedAtDesc (a b : Activity) : Bool := b.createdAt ≤ a.createdAt

/-- The activities union query of the metrics handler: the three scoped
tables tagged and projected, ordered by creation time descending, limited to
10 rows. -/
def recentActivitiesOf (db : Db) (user : AuthUser) : List Activity :=
  ((((scopedRows Lead.createdBy user db.leads).map leadActivity
      ++ (scopedRows Account.createdBy user db.accounts).map accountActivity)
      ++ (scopedRows Deal.createdBy user db.active_deals).map dealActivity).mergeSort
    byCreatedAtDesc).take 10

/-- Handler `GET /api/dashboard/metrics`.  Note that a `jwt.verify` exception
propagates to the catch block of this handler, which answers 500, not 401. -/
def dashboardMetrics (db : Db) (hdr : AuthHeader) (secret : String) (now : Nat) : Response :=
  match hdr with
  | .missing => { status := 401, success := false, message := "Authentication required" }
  | .malformed _ => { status := 401, success := false, message := "Authentication required" }
  | .bearer tok =>
    match jwt_verify tok secret now with
    | none => { status := 500, success := false, message := "Failed to fetch metrics" }
    | some decoded =>
      match findById db.auth_users decoded.userId with
      | none => { status := 401, success := false, message := "User not found" }
      | some user =>
        { status := 200, success := true,
          metrics := some ⟨(scopedRows Lead.createdBy user db.leads).length,
                           (scopedRows Account.createdBy user db.accounts).length,
                           (scopedRows Deal.createdBy user db.active_deals).length,
                           (scopedRows Contact.createdBy user db.contacts).length⟩,
          recentActivities := some (recentActivitiesOf db user),
          userRole := some user.role }

/-- Handler `POST /api/admin/users`.  As in the metrics handler, a
`jwt.verify` exception reaches the catch block, which answers 500. -/
def createUser (db : Db) (hdr : AuthHeader) (secret : String) (now : Nat) (rand : String)
    (body : CreateUserBody) : Response × Db :=
  match hdr with
  | .missing => ({ status := 401, success := false, message := "Authentication required" }, db)
  | .malformed _ => ({ status := 401, success := false, message := "Authentication required" }, db)
  | .bearer tok =>
    match jwt_verify tok secret now with
    | none => ({ status := 500, success := false, message := "Failed to create user" }, db)
    | some decoded =>
      match findById db.auth_users decoded.userId with
      | none => ({ status := 403, success := false, message := "Admin access required" }, db)
      | some adminUser =>
        if adminUser.role != "admin" then
          ({ status := 403, success := false, message := "Admin access required" }, db)
        else if falsyStr body.email || falsyStr body.displayName || falsyStr body.password then
          ({ status := 400, success := false,
             message := "Email, display name and password are required" }, db)
        else
          let email := body.email.getD ""
          match findByEmail db.auth_users (lowerStr email) with
          | some _ => ({ status := 400, success := false, message := "User already exists" }, db)
          | none =>
            let displayName := body.displayName.getD ""
            let role := body.role.getD "user"
            let userId := "user_" ++ toString now ++ "_" ++ rand
            let newUser : AuthUser :=
              ⟨userId, lowerStr email, displayName, bcrypt_hash (body.password.getD ""),
               role, true, now, now, none⟩
            ({ status := 200, success := true, message := "User created successfully",
               user := some ⟨userId, lowerStr email, role, displayName⟩ },
             { db with auth_users := db.auth_users ++ [newUser] })

/-- Projection of one row of the user listing query. -/
def userListingOf (u : AuthUser) : UserListing :=
  ⟨u.id, u.email, u.displayName, u.role, u.emailVerified, u.createdAt, u.lastLogin⟩

/-- Comparator realising `ORDER BY createdAt DESC` on the user listing. -/
def usersByCreatedAtDesc (a b : UserListing) : Bool := b.createdAt ≤ a.createdAt

/-- Handler `GET /api/admin/users`; its catch block also answers 500. -/
def listUsers (db : Db) (hdr : AuthHeader) (secret : String) (now : Nat) : Response :=
  match hdr with
  | .missing => { status := 401, success := false, message := "Authentication required" }
  | .malformed _ => { status := 401, success := false, message := "Authentication required" }
  | .bearer tok =>
    match jwt_verify tok secret now with
    | none => { status := 500, success := false, message := "Failed to fetch users" }
    | some decoded =>
      match findById db.auth_users decoded.userId with
      | none => { status := 403, success := false, message := "Admin access required" }
      | some adminUser =>
        if adminUser.role != "admin" then
          { status := 403, success := false, message := "Admin access required" }
        else
          { status := 200, success := true,
            users := some ((db.auth_users.map userListingOf).mergeSort usersByCreatedAtDesc) }

/-- Updating the last-login timestamp commutes with lookup by id: the found
row is the same row with only `lastLogin` rewritten. -/
theorem findById_recordLogin (users : List AuthUser) (uid target : String) (now : Nat) :
    findById (recordLogin users uid now) target =
      Option.map (fun u => if u.id == uid then { u with lastLogin := some now } else u)
        (findById users target) := by
  unfold findById recordLogin
  rw [List.find?_map]
  have hp : ((fun u : AuthUser => u.id == target) ∘ fun u =>
      if u.id == uid then { u with lastLogin := some now } else u) =
      fun u : AuthUser => u.id == target := by
    funext u
    by_cases h : u.id == uid <;> simp [Function.comp, h]
  rw [hp]

/-- Updating the last-login timestamp commutes with lookup by email. -/
theorem findByEmail_recordLogin (users : List AuthUser) (uid email : String) (now : Nat) :
    findByEmail (recordLogin users uid now) email =
      Option.map (fun u => if u.id == uid then { u with lastLogin := some now } else u)
        (findByEmail users email) := by
  unfold findByEmail recordLogin
  rw [List.find?_map]
  have hp : ((fun u : AuthUser => u.email == email) ∘ fun u =>
      if u.id == uid then { u with lastLogin := some now } else u) =
      fun u : AuthUser => u.email == email := by
    funext u
    by_cases h : u.id == uid <;> simp [Function.comp, h]
  rw [hp]

/-- After the deactivation UPDATE, no session row of the given user remains
active. -/
theorem countActive_deactivate (sessions : List AuthSession) (uid : String) :
    (deactivateSessions sessions uid).countP (fun s => s.userId == uid && s.isActive) = 0 := by
  rw [List.countP_eq_zero]
  intro a ha
  unfold deactivateSessions at ha
  obtain ⟨s, hs, rfl⟩ := List.mem_map.mp ha
  by_cases h : (s.userId == uid && s.isActive) = true <;> simp [h]

/-- Closed form of a successful sign-in: the response carries the public
profile and the freshly signed token, and the new database state has the
deactivate-then-insert session update applied and the last login recorded. -/
theorem signin_success_eq (db : Db) (email password : String) (now : Nat)
    (rand ip ua secret : String) (u : AuthUser)
    (hne : email ≠ "") (hpne : password ≠ "")
    (hfind : findByEmail db.auth_users (lowerStr email) = some u)
    (hpw : bcrypt_compare password u.passwordHash = true) :
    signin db ⟨some email, some password⟩ now rand ip ua secret true =
      ({ status := 200, success := true, message := "Signed in successfully",
         user := some (publicOf u),
         token := some (jwt_sign ⟨u.id, u.email, u.role, now⟩ secret now ttl24h) },
       { db with
          auth_sessions := deactivateSessions db.auth_sessions u.id
            ++ [⟨"sess_" ++ toString now ++ "_" ++ rand, u.id,
                 jwt_sign ⟨u.id, u.email, u.role, now⟩ secret now ttl24h,
                 now + ttl24h, ip, ua, true⟩],
          auth_users := recordLogin db.auth_users u.id now }) := by
  unfold signin
  simp [falsyStr, hne, hpne, hfind, hpw]

/-- Closed form of a sign-in with valid credentials whose session INSERT
fails: 500 response, deactivation already applied, nothing else changed. -/
theorem signin_insert_fail_eq (db : Db) (email password : String) (now : Nat)
    (rand ip ua secret : String) (u : AuthUser)
    (hne : email ≠ "") (hpne : password ≠ "")
    (hfind : findByEmail db.auth_users (lowerStr email) = some u)
    (hpw : bcrypt_compare password u.passwordHash = true) :
    signin db ⟨some email, some password⟩ now rand ip ua secret false =
      ({ status := 500, success := false, message := "Internal server error" },
       { db with auth_sessions := deactivateSessions db.auth_sessions u.id }) := by
  unfold signin
  simp [falsyStr, hne, hpne, hfind, hpw]

/-- Sample admin user for concrete instantiations. -/
def sampleAdmin : AuthUser :=
  ⟨"user_admin", "admin@yitro.com", "Admin", bcrypt_hash "pw1", "admin", true, 0, 0, none⟩

/-- Sample non-admin user for concrete instantiations. -/
def sampleUser : AuthUser :=
  ⟨"user_u1", "u1@x.com", "UOne", bcrypt_hash "pw2", "user", true, 0, 0, none⟩

/-- Valid token of the sample non-admin user, expiring at instant 5000. -/
def sampleTok : Jwt := ⟨⟨"user_u1", "u1@x.com", "user", 1000⟩, "default-secret", 5000⟩

/-- Valid token of the sample admin user, expiring at instant 5000. -/
def sampleAdminTok : Jwt := ⟨⟨"user_admin", "admin@yitro.com", "admin", 1000⟩, "default-secret", 5000⟩

/-- Sample database used to exercise the theorems on concrete data. -/
def sampleDb : Db :=
  ⟨[sampleAdmin, sampleUser],
   [⟨"sess_old", "user_u1", sampleTok, 5000, "ip", "ua", true⟩],
   [⟨"F", "L", "NEW", 50, "user_u1"⟩, ⟨"G", "H", "OLD", 80, "user_admin"⟩],
   [⟨"Acme", "ACTIVE", 60, "user_u1"⟩],
   [⟨"Deal", "OPEN", 70, "user_admin"⟩],
   [⟨40, "user_u1"⟩]⟩

/-- C7: a sign-in whose email matches a stored user but whose password does
not match the stored hash is answered 401 with message Invalid credentials,
and the database — the session store included — is left unchanged: no session
row is created and no session is deactivated. -/
theorem wrong_password_signin (db : Db) (email password : String) (now : Nat)
    (rand ip ua secret : String) (u : AuthUser)
    (hne : email ≠ "") (hpne : password ≠ "")
    (hfind : findByEmail db.auth_users (lowerStr email) = some u)
    (hpw : bcrypt_compare password u.passwordHash = false) :
    (signin db ⟨some email, some password⟩ now rand ip ua secret true).1.status = 401 ∧
    (signin db ⟨some email, some password⟩ now rand ip ua secret true).1.message =
      "Invalid credentials" ∧
    (signin db ⟨some email, some password⟩ now rand ip ua secret true).2 = db := by
  unfold signin
  simp [falsyStr, hne, hpne, hfind, hpw]

/-- Witness for C7 on the sample store. -/
theorem wrong_password_signin_witness :
    (signin sampleDb ⟨some "u1@x.com", some "bad"⟩ 1000 "r" "ip" "ua" "default-secret"
      true).1.status = 401 ∧
    (signin sampleDb ⟨some "u1@x.com", some "bad"⟩ 1000 "r" "ip" "ua" "default-secret"
      true).1.message = "Invalid credentials" ∧
    (signin sampleDb ⟨some "u1@x.com", some "bad"⟩ 1000 "r" "ip" "ua" "default-secret"
      true).2 = sampleDb :=
  wrong_password_signin sampleDb "u1@x.com" "bad" 1000 "r" "ip" "ua" "default-secret" sampleUser
    (by decide) (by decide) (by decide) (by decide)

/-- C8: the failure responses for an unknown email and for a known email with
a wrong password are indistinguishable to the client: both 401, same success
flag, identical message text. -/
theorem uniform_invalid_credentials (db : Db) (e1 p1 e2 p2 : String) (now1 now2 : Nat)
    (rand1 rand2 ip1 ip2 ua1 ua2 secret : String) (u : AuthUser)
    (hne1 : e1 ≠ "") (hnp1 : p1 ≠ "") (hne2 : e2 ≠ "") (hnp2 : p2 ≠ "")
    (hnouser : findByEmail db.auth_users (lowerStr e1) = none)
    (hfind : findByEmail db.auth_users (lowerStr e2) = some u)
    (hpw : bcrypt_compare p2 u.passwordHash = false) :
    (signin db ⟨some e1, some p1⟩ now1 rand1 ip1 ua1 secret true).1.status = 401 ∧
    (signin db ⟨some e2, some p2⟩ now2 rand2 ip2 ua2 secret true).1.status = 401 ∧
    (signin db ⟨some e1, some p1⟩ now1 rand1 ip1 ua1 secret true).1.success =
      (signin db ⟨some e2, some p2⟩ now2 rand2 ip2 ua2 secret true).1.success ∧
    (signin db ⟨some e1, some p1⟩ now1 rand1 ip1 ua1 secret true).1.message =
      (signin db ⟨some e2, some p2⟩ now2 rand2 ip2 ua2 secret true).1.message := by
  unfold signin
  simp [falsyStr, hne1, hnp1, hne2, hnp2, hnouser, hfind, hpw]

/-- Witness for C8 on the sample store. -/
theorem uniform_invalid_credentials_witness :
    (signin sampleDb ⟨some "nobody@x.com", some "pw"⟩ 1000 "r1" "ip" "ua" "default-secret"
      true).1.status = 401 ∧
    (signin sampleDb ⟨some "u1@x.com", some "bad"⟩ 2000 "r2" "ip" "ua" "default-secret"
      true).1.status = 401 ∧
    (signin sampleDb ⟨some "nobody@x.com", some "pw"⟩ 1000 "r1" "ip" "ua" "default-secret"
      true).1.success =
      (signin sampleDb ⟨some "u1@x.com", some "bad"⟩ 2000 "r2" "ip" "ua" "default-secret"
        true).1.success ∧
    (signin sampleDb ⟨some "nobody@x.com", some "pw"⟩ 1000 "r1" "ip" "ua" "default-secret"
      true).1.message =
      (signin sampleDb ⟨some "u1@x.com", some "bad"⟩ 2000 "r2" "ip" "ua" "default-secret"
        true).1.message :=
  uniform_invalid_credentials sampleDb "nobody@x.com" "pw" "u1@x.com" "bad" 1000 2000
    "r1" "r2" "ip" "ip" "ua" "ua" "default-secret" sampleUser
    (by decide) (by decide) (by decide) (by decide) (by decide) (by decide) (by decide)

/-- C6: a request to POST /api/admin/users whose token resolves to a
non-admin user is answered 403 Admin access required, and the credential
store is left unchanged no matter what the request body contains. -/
theorem role_gate_create_user (db : Db) (tok : Jwt) (secret : String) (now : Nat)
    (rand : String) (body : CreateUserBody) (user : AuthUser) (decoded : TokenClaims)
    (hver : jwt_verify tok secret now = some decoded)
    (hid : findById db.auth_users decoded.userId = some user)
    (hrole : user.role ≠ "admin") :
    (createUser db (.bearer tok) secret now rand body).1.status = 403 ∧
    (createUser db (.bearer tok) secret now rand body).1.message = "Admin access required" ∧
    (createUser db (.bearer tok) secret now rand body).2 = db := by
  unfold createUser
  simp [hver, hid, hrole]

/-- Witness for C6 on the sample store. -/
theorem role_gate_create_user_witness :
    (createUser sampleDb (.bearer sampleTok) "default-secret" 2000 "r"
      ⟨some "new@x.com", some "New", some "pw", none⟩).1.status = 403 ∧
    (createUser sampleDb (.bearer sampleTok) "default-secret" 2000 "r"
      ⟨some "new@x.com", some "New", some "pw", none⟩).1.message = "Admin access required" ∧
    (createUser sampleDb (.bearer sampleTok) "default-secret" 2000 "r"
      ⟨some "new@x.com", some "New", some "pw", none⟩).2 = sampleDb :=
  role_gate_create_user sampleDb sampleTok "default-secret" 2000 "r"
    ⟨some "new@x.com", some "New", some "pw", none⟩ sampleUser
    ⟨"user_u1", "u1@x.com", "user", 1000⟩ (by decide) (by decide) (by decide)

/-- C10: when credentials are valid but the session INSERT store call fails,
the sign-in answers 500 with no token, yet the deactivation of the user's
previously active sessions has already been applied and is not rolled back,
so the user is left with zero active session rows. -/
theorem signin_insert_failure_not_atomic (db : Db) (email password : String) (now : Nat)
    (rand ip ua secret : String) (u : AuthUser)
    (hne : email ≠ "") (hpne : password ≠ "")
    (hfind : findByEmail db.auth_users (lowerStr email) = some u)
    (hpw : bcrypt_compare password u.passwordHash = true) :
    (signin db ⟨some email, some password⟩ now rand ip ua secret false).1.status = 500 ∧
    (signin db ⟨some email, some password⟩ now rand ip ua secret false).1.token = none ∧
    (signin db ⟨some email, some password⟩ now rand ip ua secret false).2.auth_sessions =
      deactivateSessions db.auth_sessions u.id ∧
    (signin db ⟨some email, some password⟩ now rand ip ua secret false).2.auth_sessions.countP
      (fun s => s.userId == u.id && s.isActive) = 0 := by
  rw [signin_insert_fail_eq db email password now rand ip ua secret u hne hpne hfind hpw]
  exact ⟨rfl, rfl, rfl, countActive_deactivate _ _⟩

/-- Witness for C10 on the sample store. -/
theorem signin_insert_failure_not_atomic_witness :
    (signin sampleDb ⟨some "u1@x.com", some "pw2"⟩ 1000 "r" "ip" "ua" "default-secret"
      false).1.status = 500 ∧
    (signin sampleDb ⟨some "u1@x.com", some "pw2"⟩ 1000 "r" "ip" "ua" "default-secret"
      false).1.token = none ∧
    (signin sampleDb ⟨some "u1@x.com", some "pw2"⟩ 1000 "r" "ip" "ua" "default-secret"
      false).2.auth_sessions = deactivateSessions sampleDb.auth_sessions sampleUser.id ∧
    (signin sampleDb ⟨some "u1@x.com", some "pw2"⟩ 1000 "r" "ip" "ua" "default-secret"
      false).2.auth_sessions.countP (fun s => s.userId == sampleUser.id && s.isActive) = 0 :=
  signin_insert_failure_not_atomic sampleDb "u1@x.com" "pw2" 1000 "r" "ip" "ua" "default-secret"
    sampleUser (by decide) (by decide) (by decide) (by decide)

/-- After any successful sign-in, the user owns exactly one active session
row: the one just inserted; all previously active rows were deactivated. -/
theorem countActive_after_success (db : Db) (email password : String) (now : Nat)
    (rand ip ua secret : String) (u : AuthUser)
    (hne : email ≠ "") (hpne : password ≠ "")
    (hfind : findByEmail db.auth_users (lowerStr email) = some u)
    (hpw : bcrypt_compare password u.passwordHash = true) :
    (signin db ⟨some email, some password⟩ now rand ip ua secret true).2.auth_sessions.countP
      (fun s => s.userId == u.id && s.isActive) = 1 := by
  rw [signin_success_eq db email password now rand ip ua secret u hne hpne hfind hpw]
  simp [List.countP_append, countActive_deactivate, List.countP_cons]

/-- C1: a sign-in with valid credentials answers 200 with the public profile
of the stored user and a token that verification accepts; the user identifier
embedded in that token, presented to GET /api/auth/me before expiry, resolves
to the same user: same id, email, role and displayName. -/
theorem signin_token_roundtrip (db : Db) (email password : String) (now now2 : Nat)
    (rand ip ua secret : String) (u : AuthUser)
    (hne : email ≠ "") (hpne : password ≠ "")
    (hfind : findByEmail db.auth_users (lowerStr email) = some u)
    (hpw : bcrypt_compare password u.passwordHash = true)
    (hid : findById db.auth_users u.id = some u)
    (hfresh : now2 < now + ttl24h) :
    ∃ tok : Jwt,
      (signin db ⟨some email, some password⟩ now rand ip ua secret true).1.status = 200 ∧
      (signin db ⟨some email, some password⟩ now rand ip ua secret true).1.token = some tok ∧
      (signin db ⟨some email, some password⟩ now rand ip ua secret true).1.user =
        some (publicOf u) ∧
      jwt_verify tok secret now2 = some ⟨u.id, u.email, u.role, now⟩ ∧
      (authMe (signin db ⟨some email, some password⟩ now rand ip ua secret true).2
        (.bearer tok) secret now2).status = 200 ∧
      (authMe (signin db ⟨some email, some password⟩ now rand ip ua secret true).2
        (.bearer tok) secret now2).user = some (publicOf u) := by
  have hver : jwt_verify (jwt_sign ⟨u.id, u.email, u.role, now⟩ secret now ttl24h) secret now2
      = some ⟨u.id, u.email, u.role, now⟩ := by
    unfold jwt_sign jwt_verify
    simp [hfresh]
  have hid2 : findById (recordLogin db.auth_users u.id now) u.id =
      some { u with lastLogin := some now } := by
    rw [findById_recordLogin, hid]
    simp
  rw [signin_success_eq db email password now rand ip ua secret u hne hpne hfind hpw]
  refine ⟨jwt_sign ⟨u.id, u.email, u.role, now⟩ secret now ttl24h, rfl, rfl, rfl, hver, ?_, ?_⟩ <;>
  · unfold authMe
    simp [hver, hid2, publicOf]

/-- Witness for C1 on the sample store. -/
theorem signin_token_roundtrip_witness :
    ∃ tok : Jwt,
      (signin sampleDb ⟨some "Admin@Yitro.com", some "pw1"⟩ 1000 "r" "ip" "ua" "default-secret"
        true).1.status = 200 ∧
      (signin sampleDb ⟨some "Admin@Yitro.com", some "pw1"⟩ 1000 "r" "ip" "ua" "default-secret"
        true).1.token = some tok ∧
      (signin sampleDb ⟨some "Admin@Yitro.com", some "pw1"⟩ 1000 "r" "ip" "ua" "default-secret"
        true).1.user = some (publicOf sampleAdmin) ∧
      jwt_verify tok "default-secret" 2000 =
        some ⟨sampleAdmin.id, sampleAdmin.email, sampleAdmin.role, 1000⟩ ∧
      (authMe (signin sampleDb ⟨some "Admin@Yitro.com", some "pw1"⟩ 1000 "r" "ip" "ua"
        "default-secret" true).2 (.bearer tok) "default-secret" 2000).status = 200 ∧
      (authMe (signin sampleDb ⟨some "Admin@Yitro.com", some "pw1"⟩ 1000 "r" "ip" "ua"
        "default-secret" true).2 (.bearer tok) "default-secret" 2000).user =
        some (publicOf sampleAdmin) :=
  signin_token_roundtrip sampleDb "Admin@Yitro.com" "pw1" 1000 2000 "r" "ip" "ua"
    "default-secret" sampleAdmin (by decide) (by decide) (by decide) (by decide) (by decide)
    (by decide)

/-- C2: after two successful sign-ins in sequence by the same user, at most
one session row belonging to that user has the active flag set. -/
theorem single_active_session (db : Db) (email password : String) (now1 now2 : Nat)
    (rand1 rand2 ip ua secret : String) (u : AuthUser)
    (hne : email ≠ "") (hpne : password ≠ "")
    (hfind : findByEmail db.auth_users (lowerStr email) = some u)
    (hpw : bcrypt_compare password u.passwordHash = true) :
    ((signin (signin db ⟨some email, some password⟩ now1 rand1 ip ua secret true).2
        ⟨some email, some password⟩ now2 rand2 ip ua secret true).2.auth_sessions.countP
      (fun s => s.userId == u.id && s.isActive)) ≤ 1 := by
  have hfind2 : findByEmail
      (signin db ⟨some email, some password⟩ now1 rand1 ip ua secret true).2.auth_users
      (lowerStr email) = some { u with lastLogin := some now1 } := by
    rw [signin_success_eq db email password now1 rand1 ip ua secret u hne hpne hfind hpw]
    show findByEmail (recordLogin db.auth_users u.id now1) (lowerStr email) = _
    rw [findByEmail_recordLogin, hfind]
    simp
  have h2 := countActive_after_success
    (signin db ⟨some email, some password⟩ now1 rand1 ip ua secret true).2
    email password now2 rand2 ip ua secret { u with lastLogin := some now1 }
    hne hpne hfind2 hpw
  exact le_of_eq h2

/-- Witness for C2 on the sample store. -/
theorem single_active_session_witness :
    ((signin (signin sampleDb ⟨some "u1@x.com", some "pw2"⟩ 1000 "r1" "ip" "ua" "default-secret"
        true).2 ⟨some "u1@x.com", some "pw2"⟩ 2000 "r2" "ip" "ua" "default-secret"
        true).2.auth_sessions.countP
      (fun s => s.userId == sampleUser.id && s.isActive)) ≤ 1 :=
  single_active_session sampleDb "u1@x.com" "pw2" 1000 2000 "r1" "r2" "ip" "ua" "default-secret"
    sampleUser (by decide) (by decide) (by decide) (by decide)

/-- C3 counterexample: an expired bearer token presented to
GET /api/dashboard/metrics is answered with HTTP status 500, not 401; the
verification exception propagates to the generic catch handler of that
endpoint.  The sample token expires at instant 5000 and the request arrives
at instant 9000. -/
theorem metrics_expired_token_answers_500 :
    (dashboardMetrics sampleDb (.bearer sampleTok) "default-secret" 9000).status = 500 ∧
    ¬ (dashboardMetrics sampleDb (.bearer sampleTok) "default-secret" 9000).status = 401 :=
  ⟨by decide, by decide⟩

/-- C3 amended: with a bearer token that fails verification (invalid
signature or expired), GET /api/auth/me answers 401, while
GET /api/dashboard/metrics, POST /api/admin/users and GET /api/admin/users
answer 500 from their generic catch handlers; a missing or malformed
authorization header answers 401 on all four endpoints. -/
theorem protected_endpoints_bad_token (db : Db) (tok : Jwt) (secret : String) (now : Nat)
    (body : CreateUserBody) (rand raw : String)
    (hbad : jwt_verify tok secret now = none) :
    (authMe db (.bearer tok) secret now).status = 401 ∧
    (dashboardMetrics db (.bearer tok) secret now).status = 500 ∧
    (createUser db (.bearer tok) secret now rand body).1.status = 500 ∧
    (listUsers db (.bearer tok) secret now).status = 500 ∧
    (authMe db .missing secret now).status = 401 ∧
    (dashboardMetrics db .missing secret now).status = 401 ∧
    (createUser db .missing secret now rand body).1.status = 401 ∧
    (listUsers db .missing secret now).status = 401 ∧
    (authMe db (.malformed raw) secret now).status = 401 ∧
    (dashboardMetrics db (.malformed raw) secret now).status = 401 ∧
    (createUser db (.malformed raw) secret now rand body).1.status = 401 ∧
    (listUsers db (.malformed raw) secret now).status = 401 := by
  unfold authMe dashboardMetrics createUser listUsers
  simp [hbad]

/-- Witness for the amended C3 on the sample store with an expired token. -/
theorem protected_endpoints_bad_token_witness :
    (authMe sampleDb (.bearer sampleTok) "default-secret" 9000).status = 401 ∧
    (dashboardMetrics sampleDb (.bearer sampleTok) "default-secret" 9000).status = 500 ∧
    (createUser sampleDb (.bearer sampleTok) "default-secret" 9000 "r"
      ⟨some "n@x.com", some "N", some "pw", none⟩).1.status = 500 ∧
    (listUsers sampleDb (.bearer sampleTok) "default-secret" 9000).status = 500 ∧
    (authMe sampleDb .missing "default-secret" 9000).status = 401 ∧
    (dashboardMetrics sampleDb .missing "default-secret" 9000).status = 401 ∧
    (createUser sampleDb .missing "default-secret" 9000 "r"
      ⟨some "n@x.com", some "N", some "pw", none⟩).1.status = 401 ∧
    (listUsers sampleDb .missing "default-secret" 9000).status = 401 ∧
    (authMe sampleDb (.malformed "Token abc") "default-secret" 9000).status = 401 ∧
    (dashboardMetrics sampleDb (.malformed "Token abc") "default-secret" 9000).status = 401 ∧
    (createUser sampleDb (.malformed "Token abc") "default-secret" 9000 "r"
      ⟨some "n@x.com", some "N", some "pw", none⟩).1.status = 401 ∧
    (listUsers sampleDb (.malformed "Token abc") "default-secret" 9000).status = 401 :=
  protected_endpoints_bad_token sampleDb sampleTok "default-secret" 9000
    ⟨some "n@x.com", some "N", some "pw", none⟩ "r" "Token abc" (by decide)

/-- Closed form of a successful user creation by an admin: the new row is
appended with the email lowercased, the hashed password, the defaulted role
and a freshly generated identifier. -/
theorem createUser_success_eq (db : Db) (tok : Jwt) (secret : String) (now : Nat) (rand : String)
    (e d p : String) (r : Option String) (adminU : AuthUser) (decoded : TokenClaims)
    (hver : jwt_verify tok secret now = some decoded)
    (hid : findById db.auth_users decoded.userId = some adminU)
    (hadmin : adminU.role = "admin")
    (hne : e ≠ "") (hnd : d ≠ "") (hnp : p ≠ "")
    (hnodup : findByEmail db.auth_users (lowerStr e) = none) :
    createUser db (.bearer tok) secret now rand ⟨some e, some d, some p, r⟩ =
      ({ status := 200, success := true, message := "User created successfully",
         user := some ⟨"user_" ++ toString now ++ "_" ++ rand, lowerStr e, r.getD "user", d⟩ },
       { db with auth_users := db.auth_users ++
          [⟨"user_" ++ toString now ++ "_" ++ rand, lowerStr e, d, bcrypt_hash p,
            r.getD "user", true, now, now, none⟩] }) := by
  unfold createUser
  simp [hver, hid, hadmin, falsyStr, hne, hnd, hnp, hnodup]

/-- C5: after an admin creates a user, a second creation whose email differs
from the stored one only in letter case fails with 400 User already exists and
inserts no row: the store is exactly what the first call left. -/
theorem duplicate_email_case_insensitive (db : Db) (tok : Jwt) (secret : String)
    (now1 now2 : Nat) (rand1 rand2 : String) (adminU : AuthUser) (decoded : TokenClaims)
    (e1 d1 p1 e2 d2 p2 : String) (r1 r2 : Option String)
    (hver1 : jwt_verify tok secret now1 = some decoded)
    (hver2 : jwt_verify tok secret now2 = some decoded)
    (hid : findById db.auth_users decoded.userId = some adminU)
    (hadmin : adminU.role = "admin")
    (hne1 : e1 ≠ "") (hnd1 : d1 ≠ "") (hnp1 : p1 ≠ "")
    (hne2 : e2 ≠ "") (hnd2 : d2 ≠ "") (hnp2 : p2 ≠ "")
    (hnodup : findByEmail db.auth_users (lowerStr e1) = none)
    (hcase : lowerStr e2 = lowerStr e1) :
    (createUser (createUser db (.bearer tok) secret now1 rand1
        ⟨some e1, some d1, some p1, r1⟩).2
      (.bearer tok) secret now2 rand2 ⟨some e2, some d2, some p2, r2⟩).1.status = 400 ∧
    (createUser (createUser db (.bearer tok) secret now1 rand1
        ⟨some e1, some d1, some p1, r1⟩).2
      (.bearer tok) secret now2 rand2 ⟨some e2, some d2, some p2, r2⟩).1.message =
      "User already exists" ∧
    (createUser (createUser db (.bearer tok) secret now1 rand1
        ⟨some e1, some d1, some p1, r1⟩).2
      (.bearer tok) secret now2 rand2 ⟨some e2, some d2, some p2, r2⟩).2 =
      (createUser db (.bearer tok) secret now1 rand1 ⟨some e1, some d1, some p1, r1⟩).2 := by
  rw [createUser_success_eq db tok secret now1 rand1 e1 d1 p1 r1 adminU decoded hver1 hid
    hadmin hne1 hnd1 hnp1 hnodup]
  have hid2 : findById (db.auth_users ++
      [⟨"user_" ++ toString now1 ++ "_" ++ rand1, lowerStr e1, d1, bcrypt_hash p1,
        r1.getD "user", true, now1, now1, none⟩]) decoded.userId = some adminU := by
    unfold findById at hid ⊢
    rw [List.find?_append, hid]
    rfl
  have hdup : findByEmail (db.auth_users ++
      [⟨"user_" ++ toString now1 ++ "_" ++ rand1, lowerStr e1, d1, bcrypt_hash p1,
        r1.getD "user", true, now1, now1, none⟩]) (lowerStr e2) =
      some ⟨"user_" ++ toString now1 ++ "_" ++ rand1, lowerStr e1, d1, bcrypt_hash p1,
        r1.getD "user", true, now1, now1, none⟩ := by
    unfold findByEmail at hnodup ⊢
    rw [hcase, List.find?_append, hnodup]
    simp
  unfold createUser
  simp [hver2, hid2, hadmin, falsyStr, hne2, hnd2, hnp2, hdup]

/-- Witness for C5 on the sample store: emails A at x.com and a at X.com. -/
theorem duplicate_email_case_insensitive_witness :
    (createUser (createUser sampleDb (.bearer sampleAdminTok) "default-secret" 2000 "r1"
        ⟨some "A@x.com", some "Ann", some "pw", none⟩).2
      (.bearer sampleAdminTok) "default-secret" 3000 "r2"
      ⟨some "a@X.com", some "Bea", some "pw2", some "user"⟩).1.status = 400 ∧
    (createUser (createUser sampleDb (.bearer sampleAdminTok) "default-secret" 2000 "r1"
        ⟨some "A@x.com", some "Ann", some "pw", none⟩).2
      (.bearer sampleAdminTok) "default-secret" 3000 "r2"
      ⟨some "a@X.com", some "Bea", some "pw2", some "user"⟩).1.message =
      "User already exists" ∧
    (createUser (createUser sampleDb (.bearer sampleAdminTok) "default-secret" 2000 "r1"
        ⟨some "A@x.com", some "Ann", some "pw", none⟩).2
      (.bearer sampleAdminTok) "default-secret" 3000 "r2"
      ⟨some "a@X.com", some "Bea", some "pw2", some "user"⟩).2 =
      (createUser sampleDb (.bearer sampleAdminTok) "default-secret" 2000 "r1"
        ⟨some "A@x.com", some "Ann", some "pw", none⟩).2 :=
  duplicate_email_case_insensitive sampleDb sampleAdminTok "default-secret" 2000 3000 "r1" "r2"
    sampleAdmin ⟨"user_admin", "admin@yitro.com", "admin", 1000⟩
    "A@x.com" "Ann" "pw" "a@X.com" "Bea" "pw2" none (some "user")
    (by decide) (by decide) (by decide) (by decide) (by decide) (by decide) (by decide)
    (by decide) (by decide) (by decide) (by decide) (by decide)

/-- Every row of the activities result comes from one of the three scoped
source tables, through its tagging projection. -/
theorem recentActivitiesOf_mem (db : Db) (user : AuthUser) (a : Activity)
    (ha : a ∈ recentActivitiesOf db user) :
    (∃ l ∈ scopedRows Lead.createdBy user db.leads, a = leadActivity l) ∨
    (∃ c ∈ scopedRows Account.createdBy user db.accounts, a = accountActivity c) ∨
    (∃ d ∈ scopedRows Deal.createdBy user db.active_deals, a = dealActivity d) := by
  unfold recentActivitiesOf at ha
  have h1 : a ∈ ((scopedRows Lead.createdBy user db.leads).map leadActivity
      ++ (scopedRows Account.createdBy user db.accounts).map accountActivity)
      ++ (scopedRows Deal.createdBy user db.active_deals).map dealActivity :=
    (List.mergeSort_perm _ _).mem_iff.mp ((List.take_sublist _ _).subset ha)
  rcases List.mem_append.mp h1 with h2 | h3
  · rcases List.mem_append.mp h2 with h4 | h5
    · left
      obtain ⟨l, hl, rfl⟩ := List.mem_map.mp h4
      exact ⟨l, hl, rfl⟩
    · right
      left
      obtain ⟨c, hc, rfl⟩ := List.mem_map.mp h5
      exact ⟨c, hc, rfl⟩
  · right
    right
    obtain ⟨d, hd, rfl⟩ := List.mem_map.mp h3
    exact ⟨d, hd, rfl⟩

/-- The activities result is sorted by creation time, descending. -/
theorem recentActivitiesOf_sorted (db : Db) (user : AuthUser) :
    (recentActivitiesOf db user).Pairwise (fun a b => b.createdAt ≤ a.createdAt) := by
  unfold recentActivitiesOf
  have hs : ((((scopedRows Lead.createdBy user db.leads).map leadActivity
      ++ (scopedRows Account.createdBy user db.accounts).map accountActivity)
      ++ (scopedRows Deal.createdBy user db.active_deals).map dealActivity).mergeSort
        byCreatedAtDesc).Pairwise (fun a b => byCreatedAtDesc a b = true) :=
    List.sorted_mergeSort
      (by
        intro a b c hab hbc
        simp only [byCreatedAtDesc, decide_eq_true_eq] at hab hbc ⊢
        exact le_trans hbc hab)
      (by
        intro a b
        simp only [byCreatedAtDesc, Bool.or_eq_true, decide_eq_true_eq]
        exact Nat.le_total b.createdAt a.createdAt)
      _
  exact (List.Pairwise.sublist (List.take_sublist 10 _) hs).imp
    (by
      intro a b h
      simpa [byCreatedAtDesc] using h)

/-- C4: for an authenticated metrics request, a non-admin user gets the four
counts restricted to rows whose createdBy is their id and recentActivities
drawn only from rows they created; an admin gets counts over all rows of each
table. -/
theorem metrics_role_scoping (db : Db) (tok : Jwt) (secret : String) (now : Nat)
    (user : AuthUser) (decoded : TokenClaims)
    (hver : jwt_verify tok secret now = some decoded)
    (hid : findById db.auth_users decoded.userId = some user) :
    (user.role ≠ "admin" →
      (dashboardMetrics db (.bearer tok) secret now).metrics =
        some ⟨db.leads.countP (fun r => r.createdBy == user.id),
              db.accounts.countP (fun r => r.createdBy == user.id),
              db.active_deals.countP (fun r => r.createdBy == user.id),
              db.contacts.countP (fun r => r.createdBy == user.id)⟩ ∧
      (∀ acts, (dashboardMetrics db (.bearer tok) secret now).recentActivities = some acts →
        ∀ a ∈ acts,
          (∃ l ∈ db.leads, l.createdBy = user.id ∧ a = leadActivity l) ∨
          (∃ c ∈ db.accounts, c.createdBy = user.id ∧ a = accountActivity c) ∨
          (∃ d ∈ db.active_deals, d.createdBy = user.id ∧ a = dealActivity d))) ∧
    (user.role = "admin" →
      (dashboardMetrics db (.bearer tok) secret now).metrics =
        some ⟨db.leads.length, db.accounts.length, db.active_deals.length,
              db.contacts.length⟩) := by
  unfold dashboardMetrics
  simp only [hver, hid]
  constructor
  · intro hrole
    have hb : (user.role != "admin") = true := by simpa using hrole
    constructor
    · simp [scopedRows, hb, List.countP_eq_length_filter]
    · intro acts hacts a hmem
      have hacts2 : acts = recentActivitiesOf db user := by
        simpa using hacts.symm
      subst hacts2
      rcases recentActivitiesOf_mem db user a hmem with ⟨l, hl, rfl⟩ | ⟨c, hc, rfl⟩ | ⟨d, hd, rfl⟩
      · left
        unfold scopedRows at hl
        rw [if_pos hb] at hl
        obtain ⟨hl1, hl2⟩ := List.mem_filter.mp hl
        exact ⟨l, hl1, by simpa using hl2, rfl⟩
      · right
        left
        unfold scopedRows at hc
        rw [if_pos hb] at hc
        obtain ⟨hc1, hc2⟩ := List.mem_filter.mp hc
        exact ⟨c, hc1, by simpa using hc2, rfl⟩
      · right
        right
        unfold scopedRows at hd
        rw [if_pos hb] at hd
        obtain ⟨hd1, hd2⟩ := List.mem_filter.mp hd
        exact ⟨d, hd1, by simpa using hd2, rfl⟩
  · intro hrole
    simp [scopedRows, hrole]

/-- Witness for C4: the non-admin branch on the sample store. -/
theorem metrics_role_scoping_witness :
    (dashboardMetrics sampleDb (.bearer sampleTok) "default-secret" 2000).metrics =
      some ⟨sampleDb.leads.countP (fun r => r.createdBy == sampleUser.id),
            sampleDb.accounts.countP (fun r => r.createdBy == sampleUser.id),
            sampleDb.active_deals.countP (fun r => r.createdBy == sampleUser.id),
            sampleDb.contacts.countP (fun r => r.createdBy == sampleUser.id)⟩ :=
  ((metrics_role_scoping sampleDb sampleTok "default-secret" 2000 sampleUser
    ⟨"user_u1", "u1@x.com", "user", 1000⟩ (by decide) (by decide)).1 (by decide)).1

/-- C9: every successful metrics response lists activities typed lead,
account or deal only — never contact, although contacts are counted — with at
most 10 entries, sorted by creation time descending. -/
theorem recent_activities_shape (db : Db) (tok : Jwt) (secret : String) (now : Nat)
    (user : AuthUser) (decoded : TokenClaims)
    (hver : jwt_verify tok secret now = some decoded)
    (hid : findById db.auth_users decoded.userId = some user) :
    ∀ acts, (dashboardMetrics db (.bearer tok) secret now).recentActivities = some acts →
      (∀ a ∈ acts, a.type = "lead" ∨ a.type = "account" ∨ a.type = "deal") ∧
      (∀ a ∈ acts, a.type ≠ "contact") ∧
      acts.length ≤ 10 ∧
      acts.Pairwise (fun a b => b.createdAt ≤ a.createdAt) ∧
      (∃ m, (dashboardMetrics db (.bearer tok) secret now).metrics = some m ∧
        m.contacts = (scopedRows Contact.createdBy user db.contacts).length) := by
  unfold dashboardMetrics
  simp only [hver, hid]
  intro acts hacts
  have hacts2 : acts = recentActivitiesOf db user := by
    simpa using hacts.symm
  subst hacts2
  have htypes : ∀ a ∈ recentActivitiesOf db user,
      a.type = "lead" ∨ a.type = "account" ∨ a.type = "deal" := by
    intro a hmem
    rcases recentActivitiesOf_mem db user a hmem with ⟨l, _, rfl⟩ | ⟨c, _, rfl⟩ | ⟨d, _, rfl⟩
    · left
      rfl
    · right
      left
      rfl
    · right
      right
      rfl
  refine ⟨htypes, ?_, ?_, recentActivitiesOf_sorted db user, ?_⟩
  · intro a hmem
    rcases htypes a hmem with h | h | h <;> simp [h]
  · unfold recentActivitiesOf
    exact List.length_take_le 10 _
  · exact ⟨_, rfl, rfl⟩

/-- Witness for C9 on the sample store. -/
theorem recent_activities_shape_witness :
    (∀ a ∈ recentActivitiesOf sampleDb sampleUser,
      a.type = "lead" ∨ a.type = "account" ∨ a.type = "deal") ∧
    (∀ a ∈ recentActivitiesOf sampleDb sampleUser, a.type ≠ "contact") ∧
    (recentActivitiesOf sampleDb sampleUser).length ≤ 10 ∧
    (recentActivitiesOf sampleDb sampleUser).Pairwise (fun a b => b.createdAt ≤ a.createdAt) ∧
    (∃ m, (dashboardMetrics sampleDb (.bearer sampleTok) "default-secret" 2000).metrics =
        some m ∧
      m.contacts = (scopedRows Contact.createdBy sampleUser sampleDb.contacts).length) :=
  recent_activities_shape sampleDb sampleTok "default-secret" 2000 sampleUser
    ⟨"user_u1", "u1@x.com", "user", 1000⟩ (by decide) (by decide)
    (recentActivitiesOf sampleDb sampleUser) (by rfl)

end YitroCrm
